import Mathlib

/-!
Shallow embedding of the price-fetch core of `bot.py` (send-price-bot):
the backoff-retrying fetcher `fetch_dex_with_retries`, the TTL cache
inside `ds_get_price` and `fetch_canton_price`, the per-chat cooldown
guard inside `cmd_precio` and `cmd_cc`, and the trend-indicator helpers
`indicator_circle` and `trend_emoji`.

Modelling conventions:
- Python floats are modelled as rationals (ℚ); every numeric literal the
  claims touch (0, 50, 5, 20, 3, 2^attempt, 0.5, 1e-9) is exactly
  representable, so ℚ is faithful on the inputs at stake.
- Wall-clock time (`time.time()`) is an explicit ℚ parameter `now`.
- `random.uniform(0.0, 0.5)` is an explicit jitter parameter.
- The HTTP layer is a function from attempt index to the observed
  response; raising (`raise_for_status`) is an explicit outcome
  constructor instead of an exception.
- Python dicts used as maps (CACHE, CANTON_CACHE, LAST_BY_CHAT) are
  association lists with first-match lookup and overwrite-on-insert.
- JSON field access `d.get(k)` on an optional sub-dict is modelled with
  nested `Option`: the outer `Option` is the presence (and non-None-ness)
  of the sub-dict, the inner one the presence of the numeric field.
-/

set_option autoImplicit false

/-- Fixed cache TTL from `bot.py`: `CACHE_TTL_SEC = 20`. -/
def CACHE_TTL_SEC : ℚ := 20

/-- Fixed per-chat cooldown from `bot.py`: `CHAT_COOLDOWN_SEC = 3`. -/
def CHAT_COOLDOWN_SEC : ℚ := 3

/-! ## Trend indicator helpers (`indicator_circle`, `trend_emoji`) -/

/-- Embeds `indicator_circle(chg)`: neutral circle when `chg` is None or
within 1e-9 of zero, green when positive, red when negative. -/
def indicator_circle (chg : Option ℚ) : String :=
  match chg with
  | none => "⚪"
  | some c => if |c| < 1 / 1000000000 then "⚪" else if c > 0 then "🟢" else "🔴"

/-- Embeds `trend_emoji(chg)`: the tiered gain/loss emoji ladder, with the
exact strict/inclusive bounds of the source (`chg > 50`, `25 < chg <= 50`,
..., `-50 <= chg < -25`, `chg < -50`). -/
def trend_emoji (chg : Option ℚ) : String :=
  match chg with
  | none => ""
  | some c =>
    if c > 50 then "🚀"
    else if 25 < c ∧ c ≤ 50 then "✈️"
    else if 10 < c ∧ c ≤ 25 then "🚁"
    else if 0 < c ∧ c ≤ 10 then "🚚"
    else if c < -50 then "🏥"
    else if -50 ≤ c ∧ c < -25 then "🚑"
    else if -25 ≤ c ∧ c < -10 then "🤕"
    else if -10 ≤ c ∧ c < 0 then "🩹"
    else ""

/-! ## Python float() on header strings -/

/-- Digits of a decimal literal read into a Nat (most significant first). -/
def digitsVal (ds : List Char) : Nat :=
  ds.foldl (fun acc c => 10 * acc + (c.toNat - 48)) 0

/-- Python `str.lower()` as a per-character map (the contract addresses
and symbols at stake are ASCII). -/
def pyLower (s : String) : String :=
  ⟨s.data.map Char.toLower⟩

/-- Python `str.upper()` as a per-character map. -/
def pyUpper (s : String) : String :=
  ⟨s.data.map Char.toUpper⟩

/-- Surrounding-whitespace strip, as Python float() applies to its string
argument. -/
def stripChars (cs : List Char) : List Char :=
  ((cs.dropWhile Char.isWhitespace).reverse.dropWhile Char.isWhitespace).reverse

/-- Splits a character list into its leading run of ASCII digits and the
rest. -/
def spanDigits (cs : List Char) : List Char × List Char :=
  (cs.takeWhile Char.isDigit, cs.dropWhile Char.isDigit)

/-- Optional leading sign of a decimal literal; the rational sign factor
and the remaining characters. -/
def parseSign (cs : List Char) : ℚ × List Char :=
  match cs with
  | '+' :: r => (1, r)
  | '-' :: r => (-1, r)
  | r => (1, r)

/-- Optional leading sign of an exponent; the integer sign factor and the
remaining characters. -/
def parseSignInt (cs : List Char) : Int × List Char :=
  match cs with
  | '+' :: r => (1, r)
  | '-' :: r => (-1, r)
  | r => (1, r)

/-- Optional fractional part: the digits after a leading dot, and the
remaining characters. -/
def splitFrac (cs : List Char) : List Char × List Char :=
  match cs with
  | '.' :: r => spanDigits r
  | r => ([], r)

/-- Exponent part of a decimal literal: optional sign then digits, ending
the string. -/
def parseExpPart (sgn mant : ℚ) (cs : List Char) : Option ℚ :=
  let (ed, cs2) := spanDigits (parseSignInt cs).2
  if ed = [] ∨ cs2 ≠ [] then none
  else some (sgn * mant * (10 : ℚ) ^ ((parseSignInt cs).1 * (digitsVal ed : Int)))

/-- Tail of a decimal literal after mantissa digits: nothing, or an
exponent marker with an exponent part. -/
def finishFloat (sgn mant : ℚ) (cs : List Char) : Option ℚ :=
  match cs with
  | [] => some (sgn * mant)
  | 'e' :: r => parseExpPart sgn mant r
  | 'E' :: r => parseExpPart sgn mant r
  | _ => none

/-- Models Python `float(s)` on decimal string literals: optional
surrounding whitespace, optional sign, digits with optional fraction and
optional exponent; `none` models `ValueError`. (Python additionally
accepts `inf`, `nan` and digit underscores, which never occur in the
numeric Retry-After headers at stake.) -/
def pyFloat? (s : String) : Option ℚ :=
  let (sgn, cs1) := parseSign (stripChars s.toList)
  let (ip, cs2) := spanDigits cs1
  let (fp, cs3) := splitFrac cs2
  if ip = [] ∧ fp = [] then none
  else finishFloat sgn ((digitsVal ip : ℚ) + (digitsVal fp : ℚ) / (10 : ℚ) ^ fp.length) cs3

/-! ## Backoff-retrying fetcher (`fetch_dex_with_retries`) -/

/-- One observed HTTP response: status code, optional Retry-After header
value, and the parsed JSON body (only read on 2xx). -/
structure Response (α : Type) where
  status : Nat
  retryAfter : Option String
  body : α

/-- Result of one whole run of the retry loop: `success` is the
`return r.json(), None` path, `exhausted` the fall-through
`return None, retry_after_seen` path, and `httpError` the exception from
`r.raise_for_status()` (httpx raises on every non-2xx status). -/
inductive FetchOutcome (α : Type) where
  | success (payload : α)
  | exhausted (hint : Option ℚ)
  | httpError (status : Nat)
deriving DecidableEq

/-- The delay chosen on a 429 response, lines 41-48 of `bot.py`: a present
non-empty Retry-After header that parses as a float is used verbatim;
otherwise `2 ** attempt + random.uniform(0.0, 0.5)` (the draw is the
`jitter` argument). -/
def computeDelay (retryAfter : Option String) (attempt : Nat) (jitter : ℚ) : ℚ :=
  match retryAfter with
  | some s =>
    if s ≠ "" then
      match pyFloat? s with
      | some d => d
      | none => 2 ^ attempt + jitter
    else 2 ^ attempt + jitter
  | none => 2 ^ attempt + jitter

/-- Outcome of the retry loop together with the number of HTTP attempts
(GETs) actually made. -/
structure FetchRun (α : Type) where
  outcome : FetchOutcome α
  attempts : Nat
deriving DecidableEq

/-- The `for attempt in range(max_retries)` loop of
`fetch_dex_with_retries`: `attempt` is the next zero-based attempt index
(and the count of attempts already made), `remaining` the iterations
left, `seen` the running `retry_after_seen`. -/
def fetchGo {α : Type} (res : Nat → Response α) (jit : Nat → ℚ) :
    Nat → Nat → Option ℚ → FetchRun α
  | attempt, 0, seen => ⟨.exhausted seen, attempt⟩
  | attempt, remaining + 1, _seen =>
    let r := res attempt
    if r.status = 429 then
      let delay := computeDelay r.retryAfter attempt (jit attempt)
      fetchGo res jit (attempt + 1) remaining (some delay)
    else if 200 ≤ r.status ∧ r.status ≤ 299 then
      ⟨.success r.body, attempt + 1⟩
    else
      ⟨.httpError r.status, attempt + 1⟩

/-- Embeds `fetch_dex_with_retries(url, max_retries)`: the response the
network would give to the i-th attempt is `res i`, the i-th jitter draw is
`jit i`. -/
def fetch_dex_with_retries {α : Type} (res : Nat → Response α) (jit : Nat → ℚ)
    (max_retries : Nat) : FetchRun α :=
  fetchGo res jit 0 max_retries none

/-! ## DexScreener payload, projection, and TTL cache (`ds_get_price`) -/

/-- One entry of the `pairs` array of the DexScreener payload, with the
fields `ds_get_price` reads. An outer `none` on a nested field models both
an absent sub-dict and an explicit JSON null (the source guards both with
`or {}` / a default); the inner `none` models a missing leaf field. -/
structure Pair where
  chainId : Option String
  dexId : Option String
  baseToken : Option (Option String)
  quoteToken : Option (Option String)
  priceUsd : Option ℚ
  priceChange : Option (Option ℚ)
  volume : Option (Option ℚ)
  liquidity : Option (Option ℚ)
deriving DecidableEq

/-- The parsed DexScreener response body: `data.get("pairs")`, `none` when
the key is absent or null. -/
structure DsPayload where
  pairs : Option (List Pair)
deriving DecidableEq

/-- The normalized record `ds_get_price` builds from the best pair (the
`result` dict, lines 77-86 of `bot.py`). -/
structure PriceRecord where
  chain : Option String
  dex : Option String
  base : Option String
  quote : Option String
  price_usd : ℚ
  chg : Option ℚ
  vol24 : Option ℚ
  liq : Option ℚ
deriving DecidableEq

/-- The selection key `(p.get("liquidity", {}) or {}).get("usd", 0)`:
missing liquidity dict or missing usd field count as 0. -/
def liqKey (p : Pair) : ℚ :=
  (p.liquidity.join).getD 0

/-- Python `max(best, xs, key=...)`: folds left keeping the current
maximum, replacing it only on a strictly larger key, so the
first-encountered maximum wins ties. -/
def pyMaxBy {α : Type} (key : α → ℚ) : α → List α → α
  | best, [] => best
  | best, x :: xs => if key x > key best then pyMaxBy key x xs else pyMaxBy key best xs

/-- The `result` dict built from the chosen pair. -/
def mkResult (best : Pair) : PriceRecord :=
  { chain := best.chainId
    dex := best.dexId
    base := best.baseToken.join
    quote := best.quoteToken.join
    price_usd := best.priceUsd.getD 0
    chg := best.priceChange.join
    vol24 := best.volume.join
    liq := best.liquidity.join }

/-- Cache key of `ds_get_price`: `(chain_filter or "", contract.lower())`. -/
abbrev CacheKey := String × String

/-- One CACHE value: `{"t": epoch, "data": result}` (only successful
results are ever stored, so `data` is a `PriceRecord`). -/
structure CacheEntry where
  t : ℚ
  data : PriceRecord
deriving DecidableEq

/-- The module-level `CACHE` dict, as an association list with first-match
lookup. -/
abbrev Cache := List (CacheKey × CacheEntry)

/-- Dict lookup `CACHE.get(key)`. -/
def lookupCache (c : Cache) (k : CacheKey) : Option CacheEntry :=
  (c.find? (fun kv => kv.1 == k)).map (·.2)

/-- Dict assignment `CACHE[key] = entry` (overwrite). -/
def insertCache (c : Cache) (k : CacheKey) (e : CacheEntry) : Cache :=
  (k, e) :: c.filter (fun kv => kv.1 ≠ k)

/-- The walrus guard on lines 61-62 of `bot.py`: the stored data when a
cache entry exists for `k` and its age is strictly below the TTL. -/
def liveData (c : Cache) (k : CacheKey) (now : ℚ) : Option PriceRecord :=
  match lookupCache c k with
  | some e => if now - e.t < CACHE_TTL_SEC then some e.data else none
  | none => none

/-- The cache key `(chain_filter or "", contract.lower())`. -/
def cacheKeyOf (contract : String) (chain_filter : Option String) : CacheKey :=
  (chain_filter.getD "", pyLower contract)

/-- The candidate list after the chain filter, lines 70-72 of `bot.py`:
`pairs = data.get("pairs") or []`, then a filter on `chainId == cf` when
`cf` is truthy (non-empty). -/
def filteredPairs (payload : DsPayload) (cf : String) : List Pair :=
  let pairs0 := payload.pairs.getD []
  if cf = "" then pairs0 else pairs0.filter (fun p => p.chainId == some cf)

/-- What `ds_get_price` hands back to its caller: a result dict, the
`None` "no pairs" value, the `{"_rate_limited": True, "_retry_in": d}`
sentinel, or a propagated httpx exception. -/
inductive DsResult where
  | record (r : PriceRecord)
  | noData
  | rateLimited (retryIn : Option ℚ)
  | raised (status : Nat)
deriving DecidableEq

/-- A whole run of `ds_get_price`: its return value, the CACHE afterwards,
and how many times the producer (`fetch_dex_with_retries` + projection)
was invoked. -/
structure DsRun where
  result : DsResult
  cache : Cache
  producerCalls : Nat
deriving DecidableEq

/-- Embeds `ds_get_price(contract, chain_filter)` at time `now` with CACHE
state `cache`; `fetch` is the outcome `fetch_dex_with_retries(url)` would
produce on this call. -/
def ds_get_price (contract : String) (chain_filter : Option String) (now : ℚ)
    (cache : Cache) (fetch : FetchOutcome DsPayload) : DsRun :=
  match liveData cache (cacheKeyOf contract chain_filter) now with
  | some d => ⟨.record d, cache, 0⟩
  | none =>
    match fetch with
    | .exhausted hint => ⟨.rateLimited hint, cache, 1⟩
    | .httpError s => ⟨.raised s, cache, 1⟩
    | .success payload =>
      match filteredPairs payload (chain_filter.getD "") with
      | [] => ⟨.noData, cache, 1⟩
      | p :: ps =>
        let result := mkResult (pyMaxBy liqKey p ps)
        ⟨.record result, insertCache cache (cacheKeyOf contract chain_filter) ⟨now, result⟩, 1⟩

/-! ## Canton price fetch (`fetch_canton_price`) -/

/-- One market-maker entry of the Cantonscan payload
(`data["prices"]["canton"][name]`). -/
structure MMEntry where
  usd : Option ℚ
  last_updated_at : Option String
deriving DecidableEq

/-- The parsed Cantonscan response body, with the fields
`fetch_canton_price` reads; `pricesCanton` is
`data.get("prices", {}).get("canton", {})` as an insertion-ordered
association list (empty when either key is absent). -/
structure CantonPayload where
  price : Option ℚ
  symbol : Option String
  timestamp : Option String
  total_circulating_supply : Option ℚ
  pricesCanton : List (String × MMEntry)
deriving DecidableEq

/-- One formatted market maker (name with dashes replaced, price, update
stamp). -/
structure MarketMaker where
  name : String
  price : ℚ
  updated : String
deriving DecidableEq

/-- Stable ascending insertion by price: the new element goes after every
element already placed whose price is ≤ its own. -/
def insertByPrice (x : MarketMaker) : List MarketMaker → List MarketMaker
  | [] => [x]
  | y :: ys => if y.price ≤ x.price then y :: insertByPrice x ys else x :: y :: ys

/-- Models `market_makers.sort(key=lambda x: x["price"])`: a stable
ascending sort by price (Python list.sort is stable). -/
def sortByPrice (l : List MarketMaker) : List MarketMaker :=
  l.foldl (fun acc x => insertByPrice x acc) []

/-- The `result` dict of `fetch_canton_price`, lines 121-130 of `bot.py`. -/
structure CantonRecord where
  symbol : String
  price : ℚ
  timestamp : String
  circulating_supply : ℚ
  market_cap : Option ℚ
  market_makers : List MarketMaker
  low : Option ℚ
  high : Option ℚ
deriving DecidableEq

/-- Return value of `fetch_canton_price`: a result dict, the rate-limit
sentinel, or a propagated exception. -/
inductive CantonResult where
  | record (r : CantonRecord)
  | rateLimited (retryIn : Option ℚ)
  | raised (status : Nat)
deriving DecidableEq

/-- The module-level `CANTON_CACHE` dict (its only key is `"cc"`). -/
abbrev CantonCache := List (String × (ℚ × CantonRecord))

/-- Dict lookup `CANTON_CACHE.get("cc")`. -/
def lookupCanton (c : CantonCache) (k : String) : Option (ℚ × CantonRecord) :=
  (c.find? (fun kv => kv.1 == k)).map (·.2)

/-- A whole run of `fetch_canton_price`. -/
structure CantonRun where
  result : CantonResult
  cache : CantonCache
  producerCalls : Nat
deriving DecidableEq

/-- The projection of the Canton payload into the `result` dict, lines
102-130 of `bot.py`. -/
def cantonProject (payload : CantonPayload) : CantonRecord :=
  let price := payload.price.getD 0
  let symbol := pyUpper (payload.symbol.getD "cc")
  let timestamp := payload.timestamp.getD ""
  let supply := payload.total_circulating_supply.getD 0
  let mms := payload.pricesCanton.map (fun nm =>
    MarketMaker.mk (nm.1.replace "-" " ") ((nm.2.usd).getD 0) ((nm.2.last_updated_at).getD ""))
  let sorted := sortByPrice mms
  { symbol := symbol
    price := price
    timestamp := timestamp
    circulating_supply := supply
    market_cap := if supply ≠ 0 then some (price * supply) else none
    market_makers := sorted
    low := (sorted.head?).map (·.price)
    high := (sorted.getLast?).map (·.price) }

/-- The cache-miss tail of `fetch_canton_price` (lines 98-133 of
`bot.py`): invoke the producer once and cache only a successful result. -/
def fetchCantonMiss (now : ℚ) (cache : CantonCache)
    (fetch : FetchOutcome CantonPayload) : CantonRun :=
  match fetch with
  | .exhausted hint => ⟨.rateLimited hint, cache, 1⟩
  | .httpError s => ⟨.raised s, cache, 1⟩
  | .success payload =>
    let result := cantonProject payload
    ⟨.record result, ("cc", (now, result)) :: cache.filter (fun kv => kv.1 ≠ "cc"), 1⟩

/-- The walrus guard on lines 95-96 of `bot.py`: the stored data when the
`"cc"` entry exists and its age is strictly below the TTL. -/
def cantonLiveData (c : CantonCache) (now : ℚ) : Option CantonRecord :=
  match lookupCanton c "cc" with
  | some e => if now - e.1 < CACHE_TTL_SEC then some e.2 else none
  | none => none

/-- Embeds `fetch_canton_price()` at time `now` with CANTON_CACHE state
`cache`; `fetch` is the outcome `fetch_dex_with_retries(CANTON_API)` would
produce on this call. -/
def fetch_canton_price (now : ℚ) (cache : CantonCache)
    (fetch : FetchOutcome CantonPayload) : CantonRun :=
  match cantonLiveData cache now with
  | some d => ⟨.record d, cache, 0⟩
  | none => fetchCantonMiss now cache fetch

/-! ## Command handlers with per-chat cooldown (`cmd_precio`, `cmd_cc`) -/

/-- Requester identity: `update.effective_chat.id if update.effective_chat else None`. -/
abbrev ChatId := Option Int

/-- The module-level `LAST_BY_CHAT` dict: chat id → epoch of last allowed
call. -/
abbrev LastByChat := List (ChatId × ℚ)

/-- Dict lookup `LAST_BY_CHAT.get(chat_id)`. -/
def lookupLast (m : LastByChat) (c : ChatId) : Option ℚ :=
  (m.find? (fun kv => kv.1 == c)).map (·.2)

/-- Dict assignment `LAST_BY_CHAT[chat_id] = now` (overwrite). -/
def insertLast (m : LastByChat) (c : ChatId) (t : ℚ) : LastByChat :=
  (c, t) :: m.filter (fun kv => kv.1 ≠ c)

/-- The reply `cmd_precio` sends (each constructor is one
`reply_text`/`raise` exit of the handler). -/
inductive PrecioReply where
  | cooldownMsg
  | configureMsg
  | noPairsMsg
  | rateLimitedMsg (retryIn : Option ℚ)
  | priceMsg (r : PriceRecord)
  | raised (status : Nat)
deriving DecidableEq

/-- A whole run of `cmd_precio`: the reply plus the mutable state
afterwards. -/
structure PrecioRun where
  reply : PrecioReply
  lastByChat : LastByChat
  cache : Cache
deriving DecidableEq

/-- Embeds `cmd_precio` with configuration `chain`/`contract` (the
stripped CHAIN/CONTRACT env values), requester `chatId`, time `now`,
mutable state `lastByChat`/`cache`, and producer outcome `fetch`. -/
def cmd_precio (chain contract : String) (chatId : ChatId) (now : ℚ)
    (lastByChat : LastByChat) (cache : Cache) (fetch : FetchOutcome DsPayload) :
    PrecioRun :=
  let last := (lookupLast lastByChat chatId).getD 0
  if now - last < CHAT_COOLDOWN_SEC then ⟨.cooldownMsg, lastByChat, cache⟩
  else
    let lastByChat1 := insertLast lastByChat chatId now
    if chain = "" ∨ contract = "" then ⟨.configureMsg, lastByChat1, cache⟩
    else
      let run := ds_get_price contract (some chain) now cache fetch
      match run.result with
      | .noData => ⟨.noPairsMsg, lastByChat1, run.cache⟩
      | .rateLimited d => ⟨.rateLimitedMsg d, lastByChat1, run.cache⟩
      | .record r => ⟨.priceMsg r, lastByChat1, run.cache⟩
      | .raised s => ⟨.raised s, lastByChat1, run.cache⟩

/-- The reply `cmd_cc` sends. -/
inductive CcReply where
  | cooldownMsg
  | rateLimitedMsg (retryIn : Option ℚ)
  | priceMsg (r : CantonRecord)
  | raised (status : Nat)
deriving DecidableEq

/-- A whole run of `cmd_cc`. -/
structure CcRun where
  reply : CcReply
  lastByChat : LastByChat
  cache : CantonCache
deriving DecidableEq

/-- Embeds `cmd_cc` with requester `chatId`, time `now`, mutable state
`lastByChat`/`cache`, and producer outcome `fetch`. -/
def cmd_cc (chatId : ChatId) (now : ℚ) (lastByChat : LastByChat)
    (cache : CantonCache) (fetch : FetchOutcome CantonPayload) : CcRun :=
  let last := (lookupLast lastByChat chatId).getD 0
  if now - last < CHAT_COOLDOWN_SEC then ⟨.cooldownMsg, lastByChat, cache⟩
  else
    let lastByChat1 := insertLast lastByChat chatId now
    let run := fetch_canton_price now cache fetch
    match run.result with
    | .rateLimited d => ⟨.rateLimitedMsg d, lastByChat1, run.cache⟩
    | .record r => ⟨.priceMsg r, lastByChat1, run.cache⟩
    | .raised s => ⟨.raised s, lastByChat1, run.cache⟩

/-! ## Helper lemmas -/

/-- Cache hit: with a live entry, `ds_get_price` returns the stored data,
touches nothing, and never reaches the producer. -/
theorem ds_get_price_of_live {contract : String} {cf : Option String} {now : ℚ}
    {cache : Cache} {d : PriceRecord} (fetch : FetchOutcome DsPayload)
    (h : liveData cache (cacheKeyOf contract cf) now = some d) :
    ds_get_price contract cf now cache fetch = ⟨.record d, cache, 0⟩ := by
  unfold ds_get_price
  rw [h]

/-- Cache miss with a rate-limited producer: the sentinel is returned and
nothing is cached. -/
theorem ds_get_price_of_exhausted {contract : String} {cf : Option String} {now : ℚ}
    {cache : Cache} (hint : Option ℚ)
    (h : liveData cache (cacheKeyOf contract cf) now = none) :
    ds_get_price contract cf now cache (.exhausted hint) = ⟨.rateLimited hint, cache, 1⟩ := by
  unfold ds_get_price
  rw [h]

/-- Cache miss with a hard-failing producer: the exception propagates and
nothing is cached. -/
theorem ds_get_price_of_httpError {contract : String} {cf : Option String} {now : ℚ}
    {cache : Cache} (s : Nat)
    (h : liveData cache (cacheKeyOf contract cf) now = none) :
    ds_get_price contract cf now cache (.httpError s) = ⟨.raised s, cache, 1⟩ := by
  unfold ds_get_price
  rw [h]

/-- Cache miss, successful fetch, empty filtered list: `None` is returned
and nothing is cached. -/
theorem ds_get_price_of_noPairs {contract : String} {cf : Option String} {now : ℚ}
    {cache : Cache} {payload : DsPayload}
    (h : liveData cache (cacheKeyOf contract cf) now = none)
    (hp : filteredPairs payload (cf.getD "") = []) :
    ds_get_price contract cf now cache (.success payload) = ⟨.noData, cache, 1⟩ := by
  unfold ds_get_price
  rw [h]
  dsimp only
  rw [hp]

/-- Cache miss, successful fetch, non-empty filtered list: the best-pair
record is built, cached under the fetch key with timestamp `now`, and
returned. -/
theorem ds_get_price_of_pairs {contract : String} {cf : Option String} {now : ℚ}
    {cache : Cache} {payload : DsPayload} {p : Pair} {ps : List Pair}
    (h : liveData cache (cacheKeyOf contract cf) now = none)
    (hp : filteredPairs payload (cf.getD "") = p :: ps) :
    ds_get_price contract cf now cache (.success payload) =
      ⟨.record (mkResult (pyMaxBy liqKey p ps)),
        insertCache cache (cacheKeyOf contract cf) ⟨now, mkResult (pyMaxBy liqKey p ps)⟩, 1⟩ := by
  unfold ds_get_price
  rw [h]
  dsimp only
  rw [hp]

/-- Looking up a key right after overwriting it yields the new entry. -/
theorem lookupCache_insert (c : Cache) (k : CacheKey) (e : CacheEntry) :
    lookupCache (insertCache c k e) k = some e := by
  simp [lookupCache, insertCache, List.find?]

/-- Looking up a chat right after recording it yields the new timestamp. -/
theorem lookupLast_insert (m : LastByChat) (c : ChatId) (t : ℚ) :
    lookupLast (insertLast m c t) c = some t := by
  simp [lookupLast, insertLast, List.find?]

/-! ## C2: trend-indicator boundaries -/

/-- C2 counterexample: a percent-change of exactly +50.0 maps to the
second positive tier (the airplane), not the highest tier (the rocket),
which requires a change strictly above 50; symmetrically -50.0 maps to
the ambulance, not the hospital. So the claim that +50.0 / -50.0 map to
the highest tiers is false on the code. -/
theorem trend_emoji_at_50_not_top_tier :
    trend_emoji (some 50) = "✈️" ∧ trend_emoji (some 51) = "🚀" ∧
    trend_emoji (some (-50)) = "🚑" ∧ trend_emoji (some (-51)) = "🏥" ∧
    ("✈️" : String) ≠ "🚀" ∧ ("🚑" : String) ≠ "🏥" := by
  refine ⟨?_, ?_, ?_, ?_, by decide, by decide⟩ <;> norm_num [trend_emoji]

/-- C2 amended: a percent-change of exactly 0 maps to the neutral circle
and the empty trend emoji; +50.0 maps to the second positive tier (the
highest tier is reserved for changes strictly above 50) and -50.0 maps to
the second negative tier (the highest negative tier is reserved for
changes strictly below -50). -/
theorem trend_indicator_boundaries :
    indicator_circle (some 0) = "⚪" ∧ trend_emoji (some 0) = "" ∧
    trend_emoji (some 50) = "✈️" ∧ trend_emoji (some (-50)) = "🚑" ∧
    (∀ c : ℚ, 50 < c → trend_emoji (some c) = "🚀") ∧
    (∀ c : ℚ, c < -50 → trend_emoji (some c) = "🏥") := by
  refine ⟨?_, ?_, ?_, ?_, ?_, ?_⟩
  · norm_num [indicator_circle]
  · norm_num [trend_emoji]
  · norm_num [trend_emoji]
  · norm_num [trend_emoji]
  · intro c hc
    simp only [trend_emoji, if_pos hc]
  · intro c hc
    have h1 : ¬(c > 50) := by linarith
    have h2 : ¬(25 < c ∧ c ≤ 50) := by rintro ⟨h, _⟩; linarith
    have h3 : ¬(10 < c ∧ c ≤ 25) := by rintro ⟨h, _⟩; linarith
    have h4 : ¬(0 < c ∧ c ≤ 10) := by rintro ⟨h, _⟩; linarith
    simp only [trend_emoji, if_neg h1, if_neg h2, if_neg h3, if_neg h4, if_pos hc]

/-- C2 amended, witness: the quantified tiers evaluated at 60 and -60. -/
theorem trend_indicator_boundaries_witness :
    trend_emoji (some 60) = "🚀" ∧ trend_emoji (some (-60)) = "🏥" :=
  ⟨trend_indicator_boundaries.2.2.2.2.1 60 (by norm_num),
   trend_indicator_boundaries.2.2.2.2.2 (-60) (by norm_num)⟩

/-! ## C7: Retry-After versus backoff-with-jitter delay -/

/-- C7: on a 429 whose Retry-After header parses as the number 5 the
computed delay is exactly 5 seconds, bypassing the backoff formula; when
the header is absent, or present but non-numeric, the delay is
`2 ^ attempt + jitter` with the jitter drawn uniformly from [0, 0.5] and
`attempt` zero-indexed. -/
theorem computeDelay_retry_after (attempt : Nat) (j : ℚ)
    (hj0 : 0 ≤ j) (hj1 : j ≤ 1 / 2) :
    computeDelay (some "5") attempt j = 5 ∧
    computeDelay none attempt j = 2 ^ attempt + j ∧
    (∀ s : String, pyFloat? s = none →
      computeDelay (some s) attempt j = 2 ^ attempt + j) := by
  refine ⟨?_, rfl, ?_⟩
  · have e1 : parseSign (stripChars "5".toList) = (1, ['5']) := by decide
    have e2 : spanDigits ['5'] = (['5'], []) := by decide
    have e3 : splitFrac [] = ([], []) := by decide
    have e4 : digitsVal ['5'] = 5 := by decide
    have h5 : pyFloat? "5" = some 5 := by
      simp only [pyFloat?, e1, e2, e3, e4, finishFloat]
      norm_num [digitsVal]
    simp [computeDelay, h5]
  · intro s hs
    by_cases he : s = ""
    · simp [computeDelay, he]
    · simp [computeDelay, he, hs]

/-- C7 witness: evaluated at attempt 1 with jitter 1/4, and at the
non-numeric header value "x". -/
theorem computeDelay_retry_after_witness :
    computeDelay (some "5") 1 (1 / 4) = 5 ∧
    computeDelay none 1 (1 / 4) = 2 ^ 1 + 1 / 4 ∧
    computeDelay (some "x") 1 (1 / 4) = 2 ^ 1 + 1 / 4 := by
  have e1 : parseSign (stripChars "x".toList) = (1, ['x']) := by decide
  have e2 : spanDigits ['x'] = ([], ['x']) := by decide
  have e3 : splitFrac ['x'] = ([], ['x']) := by decide
  have hx : pyFloat? "x" = none := by
    simp only [pyFloat?, e1, e2, e3]
    norm_num
  have h := computeDelay_retry_after 1 (1 / 4) (by norm_num) (by norm_num)
  exact ⟨h.1, h.2.1, h.2.2 "x" hx⟩

/-! ## C3: three consecutive 429s exhaust maxAttempts=3 -/

/-- C3: when every one of the first three responses is a 429, a run with
`max_retries = 3` makes exactly 3 attempts (a 4th is never made) and
returns the exhausted outcome (payload None) carrying the delay computed
for the last 429 observed. -/
theorem fetch_exhausted_after_three_429s {α : Type} (res : Nat → Response α)
    (jit : Nat → ℚ) (h : ∀ i, i < 3 → (res i).status = 429) :
    fetch_dex_with_retries res jit 3 =
      ⟨.exhausted (some (computeDelay (res 2).retryAfter 2 (jit 2))), 3⟩ := by
  have h0 := h 0 (by norm_num)
  have h1 := h 1 (by norm_num)
  have h2 := h 2 (by norm_num)
  simp [fetch_dex_with_retries, fetchGo, h0, h1, h2]

/-- C3 witness: an all-429 response stream with no Retry-After header and
zero jitter gives three attempts and a final backoff hint of 2^2 + 0 = 4. -/
theorem fetch_exhausted_after_three_429s_witness :
    fetch_dex_with_retries (fun _ => Response.mk 429 none ()) (fun _ => (0 : ℚ)) 3 =
      ⟨.exhausted (some 4), 3⟩ := by
  have h := fetch_exhausted_after_three_429s (fun _ => Response.mk 429 none ())
    (fun _ => (0 : ℚ)) (fun i _ => rfl)
  simpa [computeDelay] using h

/-! ## C8: non-2xx non-429 statuses fail immediately -/

/-- Generalized loop invariant for the hard-error case: after `d` leading
429 responses from the current index, a non-2xx non-429 response stops
the loop at once. -/
theorem fetchGo_hardError {α : Type} (res : Nat → Response α) (jit : Nat → ℚ) :
    ∀ (d rem t : Nat) (seen : Option ℚ),
      d < rem →
      (∀ i, t ≤ i → i < t + d → (res i).status = 429) →
      (res (t + d)).status ≠ 429 →
      ¬(200 ≤ (res (t + d)).status ∧ (res (t + d)).status ≤ 299) →
      fetchGo res jit t rem seen = ⟨.httpError ((res (t + d)).status), t + d + 1⟩ := by
  intro d
  induction d with
  | zero =>
    intro rem t seen hrem h429 hs h2xx
    obtain ⟨r, rfl⟩ : ∃ r, rem = r + 1 := ⟨rem - 1, by omega⟩
    simp only [fetchGo]
    rw [if_neg (by simpa using hs), if_neg (by simpa using h2xx)]
    simp
  | succ d ih =>
    intro rem t seen hrem h429 hs h2xx
    obtain ⟨r, rfl⟩ : ∃ r, rem = r + 1 := ⟨rem - 1, by omega⟩
    have hshift : t + (d + 1) = (t + 1) + d := by omega
    rw [hshift] at hs h2xx ⊢
    simp only [fetchGo]
    rw [if_pos (h429 t le_rfl (by omega))]
    exact ih r (t + 1) _ (by omega)
      (fun i hi1 hi2 => h429 i (by omega) (by omega)) hs h2xx

/-- C8: if the first `a` responses are 429 and attempt `a` (zero-indexed,
with attempts remaining, `a < maxRetries`) observes a non-2xx status other
than 429, the fetcher raises on that same attempt: exactly `a + 1`
attempts are made, no further retry happens and no backoff delay is
computed for that response. -/
theorem fetch_hard_error_immediate {α : Type} (res : Nat → Response α)
    (jit : Nat → ℚ) (maxRetries a : Nat) (ha : a < maxRetries)
    (h429 : ∀ i, i < a → (res i).status = 429)
    (hs : (res a).status ≠ 429)
    (h2xx : ¬(200 ≤ (res a).status ∧ (res a).status ≤ 299)) :
    fetch_dex_with_retries res jit maxRetries = ⟨.httpError ((res a).status), a + 1⟩ := by
  have h := fetchGo_hardError res jit a maxRetries 0 none ha
    (fun i hi1 hi2 => h429 i (by omega)) (by simpa using hs) (by simpa using h2xx)
  simpa [fetch_dex_with_retries] using h

/-- C8 witness: a 500 on the very first attempt of a 3-attempt run stops
the loop after exactly one attempt. -/
theorem fetch_hard_error_immediate_witness :
    fetch_dex_with_retries (fun _ => Response.mk 500 none ()) (fun _ => (0 : ℚ)) 3 =
      ⟨.httpError 500, 1⟩ :=
  fetch_hard_error_immediate (fun _ => Response.mk 500 none ()) (fun _ => (0 : ℚ)) 3 0
    (by norm_num) (fun i hi => by omega) (by norm_num) (by norm_num)

/-- With no live entry, every kind of run invokes the producer exactly
once. -/
theorem ds_miss_producer_once {contract : String} {cf : Option String} {now : ℚ}
    {cache : Cache} (fetch : FetchOutcome DsPayload)
    (h : liveData cache (cacheKeyOf contract cf) now = none) :
    (ds_get_price contract cf now cache fetch).producerCalls = 1 := by
  cases fetch with
  | exhausted hint => rw [ds_get_price_of_exhausted hint h]
  | httpError s => rw [ds_get_price_of_httpError s h]
  | success payload =>
    cases hp : filteredPairs payload (cf.getD "") with
    | nil => rw [ds_get_price_of_noPairs h hp]
    | cons p ps => rw [ds_get_price_of_pairs h hp]

/-! ## C5: cache hit within TTL, producer invoked once on miss -/

/-- C5: with a cache entry strictly younger than the TTL, `ds_get_price`
returns exactly the stored record, leaves the cache untouched and never
invokes the producer (the result is the same for every producer outcome);
with no live entry (absent or aged at least the TTL) the producer is
invoked exactly once. -/
theorem cache_hit_within_ttl (contract : String) (cf : Option String) (now : ℚ)
    (cache : Cache) (e : CacheEntry) :
    (lookupCache cache (cacheKeyOf contract cf) = some e →
      now - e.t < CACHE_TTL_SEC →
      ∀ fetch, ds_get_price contract cf now cache fetch = ⟨.record e.data, cache, 0⟩) ∧
    (liveData cache (cacheKeyOf contract cf) now = none →
      ∀ fetch, (ds_get_price contract cf now cache fetch).producerCalls = 1) := by
  constructor
  · intro h ht fetch
    exact ds_get_price_of_live fetch (by simp [liveData, h, ht])
  · intro h fetch
    exact ds_miss_producer_once fetch h

/-- C5 witness: a one-entry cache written at time 0 is served at time 10
for any producer outcome, and an empty cache leads to exactly one
producer call. -/
theorem cache_hit_within_ttl_witness :
    ds_get_price "c" none 10 [(("", "c"), ⟨0, PriceRecord.mk none none none none 0 none none none⟩)]
        (.httpError 500) =
      ⟨.record (PriceRecord.mk none none none none 0 none none none),
        [(("", "c"), ⟨0, PriceRecord.mk none none none none 0 none none none⟩)], 0⟩ ∧
    (ds_get_price "c" none 10 [] (.exhausted none)).producerCalls = 1 := by
  constructor
  · exact (cache_hit_within_ttl "c" none 10
      [(("", "c"), ⟨0, PriceRecord.mk none none none none 0 none none none⟩)]
      ⟨0, PriceRecord.mk none none none none 0 none none none⟩).1
      (by decide) (by norm_num [CACHE_TTL_SEC]) (.httpError 500)
  · exact (cache_hit_within_ttl "c" none 10 []
      ⟨0, PriceRecord.mk none none none none 0 none none none⟩).2 (by decide) (.exhausted none)

/-! ## C9: rate-limit and hard-failure outcomes are never cached -/

/-- A cache with no live entry at `now` still has none at any later
instant. -/
theorem liveData_none_mono {cache : Cache} {k : CacheKey} {now now2 : ℚ}
    (h : liveData cache k now = none) (hle : now ≤ now2) :
    liveData cache k now2 = none := by
  unfold liveData at h ⊢
  cases hl : lookupCache cache k with
  | none => rfl
  | some e =>
    rw [hl] at h
    dsimp only at h ⊢
    have hcond : ¬(now - e.t < CACHE_TTL_SEC) := by
      intro hc
      rw [if_pos hc] at h
      exact Option.noConfusion h
    rw [if_neg (fun hlt => hcond (by linarith))]

/-- Cache miss: `fetch_canton_price` defers to its producer tail. -/
theorem fetch_canton_price_of_miss {now : ℚ} {cache : CantonCache}
    (fetch : FetchOutcome CantonPayload) (h : cantonLiveData cache now = none) :
    fetch_canton_price now cache fetch = fetchCantonMiss now cache fetch := by
  unfold fetch_canton_price
  rw [h]

/-- C9: on a cache miss, a producer that exhausted its retries makes
`ds_get_price` return the rate-limited sentinel and a producer hard
failure propagates as the raised exception; in both cases the cache is
identical afterwards, so any later call for the same key invokes the
producer again (exactly once). The same propagation-without-caching holds
for `fetch_canton_price`. -/
theorem failures_propagate_uncached (contract : String) (cf : Option String)
    (now : ℚ) (cache : Cache) (ccache : CantonCache) (hint : Option ℚ) (s : Nat) :
    (liveData cache (cacheKeyOf contract cf) now = none →
      ds_get_price contract cf now cache (.exhausted hint) = ⟨.rateLimited hint, cache, 1⟩ ∧
      ds_get_price contract cf now cache (.httpError s) = ⟨.raised s, cache, 1⟩ ∧
      (∀ now2 fetch2, now ≤ now2 →
        (ds_get_price contract cf now2 cache fetch2).producerCalls = 1)) ∧
    (cantonLiveData ccache now = none →
      fetch_canton_price now ccache (.exhausted hint) = ⟨.rateLimited hint, ccache, 1⟩ ∧
      fetch_canton_price now ccache (.httpError s) = ⟨.raised s, ccache, 1⟩) := by
  constructor
  · intro h
    refine ⟨ds_get_price_of_exhausted hint h, ds_get_price_of_httpError s h, ?_⟩
    intro now2 fetch2 hle
    exact ds_miss_producer_once fetch2 (liveData_none_mono h hle)
  · intro h
    exact ⟨by rw [fetch_canton_price_of_miss _ h]; rfl,
           by rw [fetch_canton_price_of_miss _ h]; rfl⟩

/-- C9 witness: evaluated on empty caches at time 0 with status 500 and a
hint of 7 seconds. -/
theorem failures_propagate_uncached_witness :
    (ds_get_price "c" none 0 [] (.exhausted (some 7)) = ⟨.rateLimited (some 7), [], 1⟩ ∧
      ds_get_price "c" none 0 [] (.httpError 500) = ⟨.raised 500, [], 1⟩ ∧
      (ds_get_price "c" none 1 [] (.exhausted (some 7))).producerCalls = 1) ∧
    (fetch_canton_price 0 [] (.exhausted (some 7)) = ⟨.rateLimited (some 7), [], 1⟩ ∧
      fetch_canton_price 0 [] (.httpError 500) = ⟨.raised 500, [], 1⟩) := by
  have h := failures_propagate_uncached "c" none 0 [] [] (some 7) 500
  obtain ⟨h1, h2⟩ := h
  obtain ⟨ha, hb, hc⟩ := h1 (by decide)
  exact ⟨⟨ha, hb, hc 1 (.exhausted (some 7)) (by norm_num)⟩, h2 (by decide)⟩

/-! ## C6: projection selects the first maximum-liquidity pair -/

/-- The running element of the fold never beats the final maximum. -/
theorem le_key_pyMaxBy {α : Type} (key : α → ℚ) :
    ∀ (l : List α) (a : α), key a ≤ key (pyMaxBy key a l) := by
  intro l
  induction l with
  | nil => intro a; simp [pyMaxBy]
  | cons x xs ih =>
    intro a
    by_cases hx : key x > key a
    · simp only [pyMaxBy, if_pos hx]
      exact le_of_lt (lt_of_lt_of_le hx (ih x))
    · simp only [pyMaxBy, if_neg hx]
      exact ih a

/-- Python max with first-wins ties: the chosen element splits the list so
that everything strictly before it has a strictly smaller key and
everything after it has a key no larger. -/
theorem pyMaxBy_split {α : Type} (key : α → ℚ) :
    ∀ (l : List α) (a : α), ∃ l₁ l₂,
      a :: l = l₁ ++ pyMaxBy key a l :: l₂ ∧
      (∀ q ∈ l₁, key q < key (pyMaxBy key a l)) ∧
      (∀ q ∈ l₂, key q ≤ key (pyMaxBy key a l)) := by
  intro l
  induction l with
  | nil =>
    intro a
    exact ⟨[], [], rfl, by simp, by simp⟩
  | cons x xs ih =>
    intro a
    by_cases hx : key x > key a
    · have hdef : pyMaxBy key a (x :: xs) = pyMaxBy key x xs := by
        simp only [pyMaxBy, if_pos hx]
      obtain ⟨l₁, l₂, heq, h₁, h₂⟩ := ih x
      refine ⟨a :: l₁, l₂, ?_, ?_, by rw [hdef]; exact h₂⟩
      · rw [hdef, List.cons_append]
        exact congrArg (a :: ·) heq
      · intro q hq
        rw [hdef]
        rcases List.mem_cons.mp hq with rfl | hq2
        · exact lt_of_lt_of_le hx (le_key_pyMaxBy key xs x)
        · exact h₁ q hq2
    · have hdef : pyMaxBy key a (x :: xs) = pyMaxBy key a xs := by
        simp only [pyMaxBy, if_neg hx]
      have hxa : key x ≤ key a := not_lt.mp hx
      obtain ⟨l₁, l₂, heq, h₁, h₂⟩ := ih a
      rcases l₁ with _ | ⟨y, l₁t⟩
      · -- the maximum is the head a itself
        have ha : a = pyMaxBy key a xs := by
          simpa using congrArg (fun t => t.head?) heq
        have hxs : xs = l₂ := by
          simpa using congrArg (fun t => t.tail) heq
        refine ⟨[], x :: l₂, ?_, by simp, ?_⟩
        · rw [hdef, List.nil_append, ← ha, ← hxs]
        · intro q hq
          rw [hdef]
          rcases List.mem_cons.mp hq with rfl | hq2
          · exact le_trans hxa (by rw [← ha])
          · exact h₂ q hq2
      · -- the maximum sits in the tail
        have hay : a = y := by
          simpa using congrArg (fun t => t.head?) heq
        have hxs : xs = l₁t ++ pyMaxBy key a xs :: l₂ := by
          simpa using congrArg (fun t => t.tail) heq
        refine ⟨a :: x :: l₁t, l₂, ?_, ?_, by rw [hdef]; exact h₂⟩
        · rw [hdef]
          simp only [List.cons_append]
          exact congrArg (a :: x :: ·) hxs
        · intro q hq
          rw [hdef]
          have hya : key y < key (pyMaxBy key a xs) := h₁ y (by simp)
          rcases List.mem_cons.mp hq with rfl | hq2
          · have hk := hya
            rw [← congrArg key hay] at hk
            exact hk
          · rcases List.mem_cons.mp hq2 with rfl | hq3
            · exact lt_of_le_of_lt (le_trans hxa (le_of_eq (congrArg key hay))) hya
            · exact h₁ q (by simp [hq3])

/-- C6: with a cache miss and a successful fetch, the candidate list is
`pairs` restricted (only when the chain filter is non-empty) to entries
whose chainId equals the filter; when that list is empty the call returns
the null "no data" value (not an error) and caches nothing; otherwise the
call returns the record built from the entry with maximum liquidity-in-USD
(missing liquidity counting as 0, via `liqKey`), ties broken in favor of
the first-encountered entry: every candidate strictly before the chosen
one has strictly smaller liquidity and every later one is no larger. -/
theorem projection_picks_first_max_liquidity (contract : String) (cf : Option String)
    (now : ℚ) (cache : Cache) (payload : DsPayload)
    (hmiss : liveData cache (cacheKeyOf contract cf) now = none) :
    (cf.getD "" = "" → filteredPairs payload (cf.getD "") = payload.pairs.getD []) ∧
    (cf.getD "" ≠ "" → filteredPairs payload (cf.getD "") =
      (payload.pairs.getD []).filter (fun p => p.chainId == some (cf.getD ""))) ∧
    (filteredPairs payload (cf.getD "") = [] →
      ds_get_price contract cf now cache (.success payload) = ⟨.noData, cache, 1⟩) ∧
    (∀ p ps, filteredPairs payload (cf.getD "") = p :: ps →
      ∃ best l₁ l₂,
        (ds_get_price contract cf now cache (.success payload)).result =
          .record (mkResult best) ∧
        p :: ps = l₁ ++ best :: l₂ ∧
        (∀ q ∈ l₁, liqKey q < liqKey best) ∧
        (∀ q ∈ l₂, liqKey q ≤ liqKey best) ∧
        (∀ q ∈ p :: ps, liqKey q ≤ liqKey best)) := by
  refine ⟨fun h => by simp [filteredPairs, h], fun h => by simp [filteredPairs, h], ?_, ?_⟩
  · intro hp
    exact ds_get_price_of_noPairs hmiss hp
  · intro p ps hp
    obtain ⟨l₁, l₂, heq, h₁, h₂⟩ := pyMaxBy_split liqKey ps p
    refine ⟨pyMaxBy liqKey p ps, l₁, l₂, ?_, heq, h₁, h₂, ?_⟩
    · rw [ds_get_price_of_pairs hmiss hp]
    · intro q hq
      rw [heq] at hq
      rcases List.mem_append.mp hq with hq1 | hq2
      · exact le_of_lt (h₁ q hq1)
      · rcases List.mem_cons.mp hq2 with rfl | hq3
        · exact le_rfl
        · exact h₂ q hq3

/-- C6 witness: two candidates with liquidity 100 and 500 and no chain
filter; the 500-liquidity entry is selected. -/
theorem projection_picks_first_max_liquidity_witness :
    ∃ best l₁ l₂,
      (ds_get_price "c" none 0 []
        (.success ⟨some [Pair.mk (some "A") none none none none none none (some (some 100)),
                         Pair.mk (some "B") none none none none none none (some (some 500))]⟩)).result =
        .record (mkResult best) ∧
      Pair.mk (some "A") none none none none none none (some (some 100)) ::
        [Pair.mk (some "B") none none none none none none (some (some 500))] =
        l₁ ++ best :: l₂ ∧
      (∀ q ∈ l₁, liqKey q < liqKey best) ∧
      (∀ q ∈ l₂, liqKey q ≤ liqKey best) ∧
      (∀ q ∈ Pair.mk (some "A") none none none none none none (some (some 100)) ::
          [Pair.mk (some "B") none none none none none none (some (some 500))],
        liqKey q ≤ liqKey best) :=
  (projection_picks_first_max_liquidity "c" none 0 []
    ⟨some [Pair.mk (some "A") none none none none none none (some (some 100)),
           Pair.mk (some "B") none none none none none none (some (some 500))]⟩
    rfl).2.2.2
    (Pair.mk (some "A") none none none none none none (some (some 100)))
    [Pair.mk (some "B") none none none none none none (some (some 500))] rfl

/-! ## C1: the null "no data" sentinel is NOT cached -/

/-- C1 counterexample: a successful fetch whose filtered candidate list is
empty returns the null "no data" value but stores nothing in the cache —
the cache is still empty afterwards — so a second call within the TTL
(here one second later, reusing the returned cache) invokes the producer
again instead of being served from the cache. This falsifies the claim
that the null sentinel is stored under the fetch key. -/
theorem noData_not_cached_counterexample :
    ds_get_price "c" none 0 [] (.success ⟨some []⟩) = ⟨.noData, [], 1⟩ ∧
    lookupCache (ds_get_price "c" none 0 [] (.success ⟨some []⟩)).cache
      (cacheKeyOf "c" none) = none ∧
    (ds_get_price "c" none 1 (ds_get_price "c" none 0 [] (.success ⟨some []⟩)).cache
      (.success ⟨some []⟩)).producerCalls = 1 := by
  have h1 : ds_get_price "c" none 0 [] (.success (DsPayload.mk (some []))) = ⟨.noData, [], 1⟩ :=
    ds_get_price_of_noPairs rfl rfl
  refine ⟨h1, ?_, ?_⟩
  · rw [h1]
    rfl
  · rw [h1]
    have h2 : ds_get_price "c" none 1 [] (.success (DsPayload.mk (some []))) = ⟨.noData, [], 1⟩ :=
      ds_get_price_of_noPairs rfl rfl
    rw [h2]

/-- C1 amended: when the producer succeeds with a non-empty filtered
candidate list, `ds_get_price` stores the built record under the fetch key
with timestamp `now` before returning it, and a second call for the same
key within the TTL returns that stored record without invoking the
producer; but when the filtered list is empty the null "no data" value is
returned WITHOUT being cached (the cache is unchanged), so a later call
with no live entry invokes the producer again. -/
theorem success_cached_noData_not_cached (contract : String) (cf : Option String)
    (now now2 : ℚ) (cache : Cache) (payload : DsPayload)
    (hmiss : liveData cache (cacheKeyOf contract cf) now = none) :
    (∀ p ps, filteredPairs payload (cf.getD "") = p :: ps →
      ds_get_price contract cf now cache (.success payload) =
        ⟨.record (mkResult (pyMaxBy liqKey p ps)),
          insertCache cache (cacheKeyOf contract cf)
            ⟨now, mkResult (pyMaxBy liqKey p ps)⟩, 1⟩ ∧
      (now2 - now < CACHE_TTL_SEC →
        ∀ fetch2, ds_get_price contract cf now2
            (insertCache cache (cacheKeyOf contract cf)
              ⟨now, mkResult (pyMaxBy liqKey p ps)⟩) fetch2 =
          ⟨.record (mkResult (pyMaxBy liqKey p ps)),
            insertCache cache (cacheKeyOf contract cf)
              ⟨now, mkResult (pyMaxBy liqKey p ps)⟩, 0⟩)) ∧
    (filteredPairs payload (cf.getD "") = [] →
      ds_get_price contract cf now cache (.success payload) = ⟨.noData, cache, 1⟩ ∧
      (liveData cache (cacheKeyOf contract cf) now2 = none →
        ∀ fetch2, (ds_get_price contract cf now2 cache fetch2).producerCalls = 1)) := by
  constructor
  · intro p ps hp
    refine ⟨ds_get_price_of_pairs hmiss hp, ?_⟩
    intro httl fetch2
    exact ds_get_price_of_live fetch2
      (by simp [liveData, lookupCache_insert, httl])
  · intro hp
    refine ⟨ds_get_price_of_noPairs hmiss hp, ?_⟩
    intro hmiss2 fetch2
    exact ds_miss_producer_once fetch2 hmiss2

/-! ## C4 and C10: per-chat cooldown guard -/

/-- In cooldown, `cmd_precio` replies with the anti-spam message and
leaves every piece of state untouched (for every producer outcome). -/
theorem cmd_precio_rejected {chain contract : String} {chatId : ChatId} {now : ℚ}
    {m : LastByChat} {cache : Cache} (fetch : FetchOutcome DsPayload)
    (h : now - (lookupLast m chatId).getD 0 < CHAT_COOLDOWN_SEC) :
    cmd_precio chain contract chatId now m cache fetch = ⟨.cooldownMsg, m, cache⟩ := by
  simp only [cmd_precio]
  rw [if_pos h]

/-- Past the cooldown, `cmd_precio` records `now` for the chat before
anything else, and never replies with the cooldown message. -/
theorem cmd_precio_allowed {chain contract : String} {chatId : ChatId} {now : ℚ}
    {m : LastByChat} {cache : Cache} (fetch : FetchOutcome DsPayload)
    (h : ¬(now - (lookupLast m chatId).getD 0 < CHAT_COOLDOWN_SEC)) :
    (cmd_precio chain contract chatId now m cache fetch).lastByChat =
      insertLast m chatId now ∧
    (cmd_precio chain contract chatId now m cache fetch).reply ≠ .cooldownMsg := by
  simp only [cmd_precio]
  rw [if_neg h]
  split
  · exact ⟨rfl, by simp⟩
  · split <;> exact ⟨rfl, by simp⟩

/-- In cooldown, `cmd_cc` replies with the anti-spam message and leaves
every piece of state untouched (for every producer outcome). -/
theorem cmd_cc_rejected {chatId : ChatId} {now : ℚ} {m : LastByChat}
    {cache : CantonCache} (fetch : FetchOutcome CantonPayload)
    (h : now - (lookupLast m chatId).getD 0 < CHAT_COOLDOWN_SEC) :
    cmd_cc chatId now m cache fetch = ⟨.cooldownMsg, m, cache⟩ := by
  simp only [cmd_cc]
  rw [if_pos h]

/-- Past the cooldown, `cmd_cc` records `now` for the chat before the
fetch, and never replies with the cooldown message. -/
theorem cmd_cc_allowed {chatId : ChatId} {now : ℚ} {m : LastByChat}
    {cache : CantonCache} (fetch : FetchOutcome CantonPayload)
    (h : ¬(now - (lookupLast m chatId).getD 0 < CHAT_COOLDOWN_SEC)) :
    (cmd_cc chatId now m cache fetch).lastByChat = insertLast m chatId now ∧
    (cmd_cc chatId now m cache fetch).reply ≠ .cooldownMsg := by
  simp only [cmd_cc]
  rw [if_neg h]
  split <;> exact ⟨rfl, by simp⟩

/-- C4: the guard rejects exactly when `now` minus the chat's recorded
last-allowed timestamp (0 when absent) is strictly below the cooldown; a
rejection changes no state and performs no fetch (the output does not
depend on the producer); an allowed request records `now` for the chat,
and any request from the same chat strictly within the cooldown window
after an allowed one is rejected — so two allowed requests are never
separated by less than the window. The same guard protects `cmd_cc`. -/
theorem cooldown_guard_iff (chain contract : String) (chatId : ChatId) (now : ℚ)
    (m : LastByChat) (cache : Cache) (ccache : CantonCache) :
    (now - (lookupLast m chatId).getD 0 < CHAT_COOLDOWN_SEC →
      (∀ fetch, cmd_precio chain contract chatId now m cache fetch = ⟨.cooldownMsg, m, cache⟩) ∧
      (∀ cfetch, cmd_cc chatId now m ccache cfetch = ⟨.cooldownMsg, m, ccache⟩)) ∧
    (¬(now - (lookupLast m chatId).getD 0 < CHAT_COOLDOWN_SEC) →
      ∀ fetch,
        (cmd_precio chain contract chatId now m cache fetch).reply ≠ .cooldownMsg ∧
        lookupLast (cmd_precio chain contract chatId now m cache fetch).lastByChat chatId =
          some now ∧
        (∀ now2 cache2 fetch2, now2 - now < CHAT_COOLDOWN_SEC →
          cmd_precio chain contract chatId now2
              (cmd_precio chain contract chatId now m cache fetch).lastByChat cache2 fetch2 =
            ⟨.cooldownMsg,
              (cmd_precio chain contract chatId now m cache fetch).lastByChat, cache2⟩)) := by
  constructor
  · intro h
    exact ⟨fun fetch => cmd_precio_rejected fetch h, fun cfetch => cmd_cc_rejected cfetch h⟩
  · intro h fetch
    obtain ⟨hl, hr⟩ := @cmd_precio_allowed chain contract chatId now m cache fetch h
    refine ⟨hr, ?_, ?_⟩
    · rw [hl, lookupLast_insert]
    · intro now2 cache2 fetch2 h2
      rw [hl]
      exact cmd_precio_rejected fetch2 (by rw [lookupLast_insert]; simpa using h2)

/-- C4 witness: with an empty cooldown map, a request at t=1 is rejected
(1 - 0 < 3) with state untouched; a request at t=5 is allowed and records
t=5, and a follow-up at t=6 is rejected. -/
theorem cooldown_guard_iff_witness :
    cmd_precio "eth" "0xa" (some 1) 1 [] [] (.exhausted none) = ⟨.cooldownMsg, [], []⟩ ∧
    lookupLast (cmd_precio "eth" "0xa" (some 1) 5 [] [] (.exhausted none)).lastByChat
      (some 1) = some 5 ∧
    cmd_precio "eth" "0xa" (some 1) 6
        (cmd_precio "eth" "0xa" (some 1) 5 [] [] (.exhausted none)).lastByChat []
        (.exhausted none) =
      ⟨.cooldownMsg,
        (cmd_precio "eth" "0xa" (some 1) 5 [] [] (.exhausted none)).lastByChat, []⟩ := by
  have h1 := (cooldown_guard_iff "eth" "0xa" (some 1) 1 [] [] []).1
    (by norm_num [lookupLast, CHAT_COOLDOWN_SEC])
  have h2 := (cooldown_guard_iff "eth" "0xa" (some 1) 5 [] [] []).2
    (by norm_num [lookupLast, CHAT_COOLDOWN_SEC]) (.exhausted none)
  exact ⟨h1.1 (.exhausted none), h2.2.1,
    h2.2.2 6 [] (.exhausted none) (by norm_num [CHAT_COOLDOWN_SEC])⟩

/-- C10: once a request passes the cooldown check, `now` is recorded for
the chat before the configuration check and before any fetch: for every
producer outcome the chat's last-allowed timestamp afterwards is `now`,
and a follow-up strictly within the cooldown window is rejected — even
when the request itself failed (missing chain/contract configuration,
rate-limited producer, upstream hard error, or empty candidate list), as
witnessed by the reply in each failing case. The same holds for `cmd_cc`. -/
theorem failed_request_still_starts_cooldown (chain contract : String) (chatId : ChatId)
    (now now2 : ℚ) (m : LastByChat) (cache : Cache) (ccache : CantonCache)
    (h : ¬(now - (lookupLast m chatId).getD 0 < CHAT_COOLDOWN_SEC)) :
    (∀ fetch,
      lookupLast (cmd_precio chain contract chatId now m cache fetch).lastByChat chatId =
        some now ∧
      (now2 - now < CHAT_COOLDOWN_SEC → ∀ cache2 fetch2,
        (cmd_precio chain contract chatId now2
          (cmd_precio chain contract chatId now m cache fetch).lastByChat cache2 fetch2).reply =
          .cooldownMsg)) ∧
    (chain = "" ∨ contract = "" →
      ∀ fetch, (cmd_precio chain contract chatId now m cache fetch).reply = .configureMsg) ∧
    (chain ≠ "" → contract ≠ "" →
      liveData cache (cacheKeyOf contract (some chain)) now = none →
      (∀ hint, (cmd_precio chain contract chatId now m cache (.exhausted hint)).reply =
        .rateLimitedMsg hint) ∧
      (∀ s, (cmd_precio chain contract chatId now m cache (.httpError s)).reply = .raised s) ∧
      (∀ payload, filteredPairs payload ((some chain).getD "") = [] →
        (cmd_precio chain contract chatId now m cache (.success payload)).reply =
          .noPairsMsg)) ∧
    (∀ cfetch,
      lookupLast (cmd_cc chatId now m ccache cfetch).lastByChat chatId = some now ∧
      (now2 - now < CHAT_COOLDOWN_SEC → ∀ ccache2 cfetch2,
        (cmd_cc chatId now2 (cmd_cc chatId now m ccache cfetch).lastByChat ccache2
          cfetch2).reply = .cooldownMsg)) := by
  refine ⟨?_, ?_, ?_, ?_⟩
  · intro fetch
    obtain ⟨hl, _⟩ := @cmd_precio_allowed chain contract chatId now m cache fetch h
    refine ⟨by rw [hl, lookupLast_insert], ?_⟩
    intro h2 cache2 fetch2
    rw [hl]
    rw [cmd_precio_rejected fetch2 (by rw [lookupLast_insert]; simpa using h2)]
  · intro hc fetch
    simp only [cmd_precio]
    rw [if_neg h, if_pos hc]
  · intro hc1 hc2 hmiss
    refine ⟨?_, ?_, ?_⟩
    · intro hint
      simp only [cmd_precio]
      rw [if_neg h, if_neg (not_or.mpr ⟨hc1, hc2⟩), ds_get_price_of_exhausted hint hmiss]
    · intro s
      simp only [cmd_precio]
      rw [if_neg h, if_neg (not_or.mpr ⟨hc1, hc2⟩), ds_get_price_of_httpError s hmiss]
    · intro payload hp
      simp only [cmd_precio]
      rw [if_neg h, if_neg (not_or.mpr ⟨hc1, hc2⟩), ds_get_price_of_noPairs hmiss hp]
  · intro cfetch
    obtain ⟨hl, _⟩ := @cmd_cc_allowed chatId now m ccache cfetch h
    refine ⟨by rw [hl, lookupLast_insert], ?_⟩
    intro h2 ccache2 cfetch2
    rw [hl]
    rw [cmd_cc_rejected cfetch2 (by rw [lookupLast_insert]; simpa using h2)]

/-- C10 witness: at t=10 on an empty map, a rate-limited request with
missing configuration (empty chain) still records t=10, a configured
request that gets rate-limited replies with the rate-limit message, and a
follow-up at t=11 is rejected. -/
theorem failed_request_still_starts_cooldown_witness :
    (cmd_precio "" "0xa" (some 1) 10 [] [] (.exhausted (some 7))).reply = .configureMsg ∧
    lookupLast (cmd_precio "" "0xa" (some 1) 10 [] [] (.exhausted (some 7))).lastByChat
      (some 1) = some 10 ∧
    (cmd_precio "eth" "0xa" (some 1) 10 [] [] (.exhausted (some 7))).reply =
      .rateLimitedMsg (some 7) ∧
    (cmd_precio "eth" "0xa" (some 1) 11
      (cmd_precio "eth" "0xa" (some 1) 10 [] [] (.exhausted (some 7))).lastByChat []
      (.exhausted none)).reply = .cooldownMsg ∧
    lookupLast (cmd_cc (some 1) 10 [] [] (.exhausted (some 7))).lastByChat (some 1) =
      some 10 := by
  have hempty := failed_request_still_starts_cooldown "" "0xa" (some 1) 10 11 [] [] []
    (by norm_num [lookupLast, CHAT_COOLDOWN_SEC])
  have hcfg := failed_request_still_starts_cooldown "eth" "0xa" (some 1) 10 11 [] [] []
    (by norm_num [lookupLast, CHAT_COOLDOWN_SEC])
  refine ⟨hempty.2.1 (Or.inl rfl) (.exhausted (some 7)),
    (hempty.1 (.exhausted (some 7))).1,
    ((hcfg.2.2.1 (by decide) (by decide) rfl).1 (some 7)),
    ?_, (hcfg.2.2.2 (.exhausted (some 7))).1⟩
  exact (hcfg.1 (.exhausted (some 7))).2 (by norm_num [CHAT_COOLDOWN_SEC]) [] (.exhausted none)

/-- C1 amended witness: a single all-null pair is fetched at t=0, cached
under the fetch key, and served from the cache at t=1 with no producer
call. -/
theorem success_cached_noData_not_cached_witness :
    ds_get_price "c" none 0 []
        (.success ⟨some [Pair.mk none none none none none none none none]⟩) =
      ⟨.record (mkResult (pyMaxBy liqKey (Pair.mk none none none none none none none none) [])),
        insertCache [] (cacheKeyOf "c" none)
          ⟨0, mkResult (pyMaxBy liqKey (Pair.mk none none none none none none none none) [])⟩,
        1⟩ ∧
    ds_get_price "c" none 1
        (insertCache [] (cacheKeyOf "c" none)
          ⟨0, mkResult (pyMaxBy liqKey (Pair.mk none none none none none none none none) [])⟩)
        (.exhausted none) =
      ⟨.record (mkResult (pyMaxBy liqKey (Pair.mk none none none none none none none none) [])),
        insertCache [] (cacheKeyOf "c" none)
          ⟨0, mkResult (pyMaxBy liqKey (Pair.mk none none none none none none none none) [])⟩,
        0⟩ := by
  have h := (success_cached_noData_not_cached "c" none 0 1 []
    ⟨some [Pair.mk none none none none none none none none]⟩ rfl).1
    (Pair.mk none none none none none none none none) [] rfl
  exact ⟨h.1, h.2 (by norm_num [CACHE_TTL_SEC]) (.exhausted none)⟩
